import Mathlib

/-!
Shallow embedding of the CXXCFRef repository: an RAII reference-counting
wrapper `CFRef<T>` for Core Foundation handles, replicated near-identically
in the namespaces `CXXCFRef`, `cf` and `cxxcf`.

Handles are modelled as `Nat`; a nullable handle value (`T _Nullable`) is
`Option Nat`, with `none` for `nullptr`.  Every call an operation makes into
the external runtime — `CFRetain`, `CFRelease` — and every other external
side effect (the `malloc` appearing in one variant) is recorded in a trace
of events; `CFRetain` returns its argument, so the value stored after a
retain is the retained handle itself.  `CFEqual` is modelled as an abstract
boolean function on non-null handles, passed as a parameter.  Each
operation is a function from the wrapper state (the single data member
`object_`) to the new state together with the emitted trace.
-/

/-- Events of the external boundary: calls into the reference-counting
runtime (`CFRetain` as `acquire`, `CFRelease` as `release`) and any other
external side effect (`malloc(size)` as `alloc size`). -/
inductive Event where
  | acquire (h : Nat)
  | release (h : Nat)
  | alloc (size : Nat)
deriving DecidableEq, Repr

/-- Trace emitted by `if (old) CFRelease(old);` for the old value `old`. -/
def releaseEvents : Option Nat → List Event
  | some h => [Event.release h]
  | none => []

/-- Trace emitted by `object ? CFRetain(object) : nullptr` for `object`. -/
def acquireEvents : Option Nat → List Event
  | some h => [Event.acquire h]
  | none => []

/-- Effect of one event on the external reference count `c` of handle `x`:
an acquire of `x` increments it, a release of `x` decrements it, any other
event leaves it unchanged. -/
def applyCount (c : Nat) (x : Nat) : Event → Nat
  | Event.acquire h => if h = x then c + 1 else c
  | Event.release h => if h = x then c - 1 else c
  | Event.alloc _ => c

/-- Reference count of handle `x` after running a whole trace, starting
from count `c`. -/
def runTrace (c : Nat) (x : Nat) : List Event → Nat
  | [] => c
  | e :: es => runTrace (applyCount c x e) x es

/-- Minimum, over all prefixes of a trace, of the running reference count
of handle `x` starting from count `c`: the lowest level the external count
reaches at any point while the trace is emitted. -/
def minCount (c : Nat) (x : Nat) : List Event → Nat
  | [] => c
  | e :: es => min c (minCount (applyCount c x e) x es)

namespace CXXCFRef

/-- State of `CXXCFRef::CFRef<T>`: the single data member
`T object_{nullptr}`, with `none` modelling `nullptr`. -/
structure CFRef where
  object_ : Option Nat
deriving DecidableEq, Repr

/-- Constructor `CFRef(T object)` (owning): `object_{object}`, no calls
into the runtime. -/
def CFRef.ctorObject (object : Option Nat) : CFRef × List Event :=
  (⟨object⟩, [])

/-- Constructor `CFRef(T object, retain_ref_t)`:
`object_{object ? (T)CFRetain(object) : nullptr}`; `CFRetain` returns its
argument, so the stored value is `object` itself. -/
def CFRef.ctorRetain (object : Option Nat) : CFRef × List Event :=
  match object with
  | some h => (⟨some h⟩, [Event.acquire h])
  | none => (⟨none⟩, [])

/-- Factory `CFRef<T>::adopt(object)`: `return CFRef{object};`. -/
def CFRef.adopt (object : Option Nat) : CFRef × List Event :=
  CFRef.ctorObject object

/-- Factory `CFRef<T>::retain(object)`: `return CFRef{object, retain_ref};`. -/
def CFRef.retain (object : Option Nat) : CFRef × List Event :=
  CFRef.ctorRetain object

/-- Method `reset(object)`:
`if(auto old = std::exchange(object_, object); old) CFRelease(old);` —
the new value is stored and the previously stored value, if non-null, is
released. -/
def CFRef.reset (s : CFRef) (object : Option Nat) : CFRef × List Event :=
  (⟨object⟩, releaseEvents s.object_)

/-- Destructor `~CFRef()`: `reset();`.  Only the emitted trace is
observable afterwards. -/
def CFRef.dtor (s : CFRef) : List Event :=
  (s.reset none).2

/-- Copy constructor `CFRef(const CFRef& other)`: delegates to
`CFRef{other.object_, retain_ref}`. -/
def CFRef.ctorCopy (other : CFRef) : CFRef × List Event :=
  CFRef.ctorRetain other.object_

/-- Copy assignment `operator=(const CFRef& other)`:
`reset(other.object_ ? (T)CFRetain(other.object_) : nullptr);`.
`other.object_` is read and `CFRetain` fully evaluated before `reset`
mutates `object_`, so these equations are also faithful when `other`
aliases `*this`. -/
def CFRef.copyAssign (s other : CFRef) : CFRef × List Event :=
  match other.object_ with
  | some h =>
    let r := s.reset (some h)
    (r.1, Event.acquire h :: r.2)
  | none => s.reset none

/-- Method `release()`: `return std::exchange(object_, nullptr);` — no
calls into the runtime.  Result: (returned handle, new state, trace). -/
def CFRef.release (s : CFRef) : Option Nat × CFRef × List Event :=
  (s.object_, ⟨none⟩, [])

/-- Move constructor `CFRef(CFRef&& other)`: `object_{other.release()}`.
Result: (constructed wrapper, `other` afterwards, trace). -/
def CFRef.ctorMove (other : CFRef) : CFRef × CFRef × List Event :=
  let r := other.release
  (⟨r.1⟩, r.2.1, r.2.2)

/-- Move assignment `operator=(CFRef&& other)` for `other` distinct from
`*this`: `reset(other.release());`.  Result: (`*this` afterwards, `other`
afterwards, trace). -/
def CFRef.moveAssign (s other : CFRef) : CFRef × CFRef × List Event :=
  let r := other.release
  let t := s.reset r.1
  (t.1, r.2.1, r.2.2 ++ t.2)

/-- Move assignment `operator=(CFRef&& other)` when `other` aliases
`*this`: `other.release()` first reads `object_`, clears it and returns
the old value, then `reset` runs on the already-cleared state. -/
def CFRef.moveAssignSelf (s : CFRef) : CFRef × List Event :=
  let x := s.object_
  let s1 : CFRef := ⟨none⟩
  s1.reset x

/-- Method `put()`: `reset(); return &object_;`.  The state after `put`
holds `none` (the slot the returned pointer designates contains null at
the moment of return); the returned pointer is `&object_`, modelled by
`writeSlot` below. -/
def CFRef.put (s : CFRef) : CFRef × List Event :=
  s.reset none

/-- Store of a handle through the pointer returned by `put()`: the caller
writes `*p = object` directly into the wrapper's internal storage
`object_`, with no call into the runtime. -/
def CFRef.writeSlot (_ : CFRef) (object : Option Nat) : CFRef :=
  ⟨object⟩

/-- Micro-step view of `reset(object)`: `std::exchange(object_, object)`
first stores the new value, then the old value, if non-null, is passed to
`CFRelease`.  Each element is the wrapper state at that point, paired with
the event the step emits, if any. -/
def CFRef.resetSteps (s : CFRef) (object : Option Nat) : List (CFRef × Option Event) :=
  match s.object_ with
  | some old => [(⟨object⟩, none), (⟨object⟩, some (Event.release old))]
  | none => [(⟨object⟩, none)]

end CXXCFRef

namespace cf

/-- State of `cf::CFRef<T>`: the single data member `T object_{nullptr}`. -/
structure CFRef where
  object_ : Option Nat
deriving DecidableEq, Repr

/-- Constructor `CFRef(T object, retain_t)` of the `cf` variant: the member
initializer `object_{object ? static_cast<T>(CFRetain(object)) : nullptr}`
runs first, then the constructor body declares two unused locals and calls
`(void)malloc(100)`. -/
def CFRef.ctorRetain (object : Option Nat) : CFRef × List Event :=
  match object with
  | some h => (⟨some h⟩, [Event.acquire h, Event.alloc 100])
  | none => (⟨none⟩, [Event.alloc 100])

/-- Factory `cf::CFRef<T>::retain(object)`: `return CFRef(object, cf::retain);`. -/
def CFRef.retain (object : Option Nat) : CFRef × List Event :=
  CFRef.ctorRetain object

/-- Method `reset(object)` of the `cf` variant:
`if (auto old = std::exchange(object_, object); old) { CFRelease(old); }`. -/
def CFRef.reset (s : CFRef) (object : Option Nat) : CFRef × List Event :=
  (⟨object⟩, releaseEvents s.object_)

/-- Method `put()` of the `cf` variant: `reset(); return &object_;`. -/
def CFRef.put (s : CFRef) : CFRef × List Event :=
  s.reset none

/-- Method `leak()` of the `cf` variant:
`return std::exchange(object_, nullptr);` — no calls into the runtime.
Result: (returned handle, new state, trace). -/
def CFRef.leak (s : CFRef) : Option Nat × CFRef × List Event :=
  (s.object_, ⟨none⟩, [])

/-- Method `isEqual(CFTypeRef other)` of the `cf` variant:
`(!object_ && (other == nullptr)) || (object_ && (other != nullptr) && CFEqual(object_, other))`,
with `CFEqual` abstracted as `eq`.  Both null: true; exactly one null:
false; both non-null: the result of `CFEqual`. -/
def CFRef.isEqualRaw (eq : Nat → Nat → Bool) (s : CFRef) (other : Option Nat) : Bool :=
  match s.object_, other with
  | none, none => true
  | some a, some b => eq a b
  | _, _ => false

/-- Method `isEqual(const CFRef& other)` of the `cf` variant: delegates to
`isEqual(static_cast<CFTypeRef>(other.object_))`. -/
def CFRef.isEqual (eq : Nat → Nat → Bool) (s other : CFRef) : Bool :=
  s.isEqualRaw eq other.object_

end cf

namespace cxxcf

/-- State of `cxxcf::CFRef<T>`: the single data member `T object_{nullptr}`. -/
structure CFRef where
  object_ : Option Nat
deriving DecidableEq, Repr

/-- Constructor `CFRef(T object, retain_ref_t)` of the `cxxcf` variant:
`object_{object ? static_cast<T>(CFRetain(object)) : nullptr}`, empty body. -/
def CFRef.ctorRetain (object : Option Nat) : CFRef × List Event :=
  match object with
  | some h => (⟨some h⟩, [Event.acquire h])
  | none => (⟨none⟩, [])

/-- Factory `cxxcf::CFRef<T>::retain(object)`: `return CFRef(object, retain_ref);`. -/
def CFRef.retain (object : Option Nat) : CFRef × List Event :=
  CFRef.ctorRetain object

/-- Method `reset(object)` of the `cxxcf` variant:
`if (auto old = std::exchange(object_, object); old) { CFRelease(old); }`. -/
def CFRef.reset (s : CFRef) (object : Option Nat) : CFRef × List Event :=
  (⟨object⟩, releaseEvents s.object_)

/-- Method `isEqual(CFTypeRef other)` of the `cxxcf` variant:
`(!object_ && (other == nullptr)) || (object_ && other && CFEqual(object_, other))`,
with `CFEqual` abstracted as `eq`. -/
def CFRef.isEqualRaw (eq : Nat → Nat → Bool) (s : CFRef) (other : Option Nat) : Bool :=
  match s.object_, other with
  | none, none => true
  | some a, some b => eq a b
  | _, _ => false

/-- Method `isEqual(const CFRef& other)` of the `cxxcf` variant: delegates
to `isEqual(static_cast<CFTypeRef>(other.object_))`. -/
def CFRef.isEqual (eq : Nat → Nat → Bool) (s other : CFRef) : Bool :=
  s.isEqualRaw eq other.object_

end cxxcf

/-! Claim theorems. -/

/-- C1: the claim that every wrapper operation's only external effects are
the enumerated acquire/release/equals calls — in particular that the
retain-tagged constructor, for non-null input, performs exactly one acquire
and nothing else — fails for the `cf` variant: the body of
`cf::CFRef<T>::CFRef(T, retain_t)` additionally calls `malloc(100)`, an
external allocation (leaked), for null input as well.  Evaluating the
embedded constructors at handle 1 exhibits the extra effect; the
`CXXCFRef` and `cxxcf` variants do satisfy the claim. -/
theorem C1_cf_retain_ctor_allocates :
    cf.CFRef.ctorRetain (some 1) = (⟨some 1⟩, [Event.acquire 1, Event.alloc 100]) ∧
      (cf.CFRef.ctorRetain (some 1)).2 ≠ [Event.acquire 1] ∧
      cf.CFRef.ctorRetain none = (⟨none⟩, [Event.alloc 100]) ∧
      CXXCFRef.CFRef.ctorRetain (some 1) = (⟨some 1⟩, [Event.acquire 1]) ∧
      cxxcf.CFRef.ctorRetain (some 1) = (⟨some 1⟩, [Event.acquire 1]) := by
  refine ⟨rfl, ?_, rfl, rfl, rfl⟩
  decide

/-- C2: adopting any handle (null included) and immediately destroying the
wrapper emits exactly one release of the handle when it is non-null, no
event at all when it is null, and never an acquire: the combined trace of
`adopt` and the destructor is exactly `releaseEvents object`. -/
theorem C2_adopt_then_destroy (object : Option Nat) :
    (CXXCFRef.CFRef.adopt object).2
        ++ CXXCFRef.CFRef.dtor (CXXCFRef.CFRef.adopt object).1
      = releaseEvents object := by
  cases object <;> rfl

/-- C3: `retain` on a non-null handle emits exactly one acquire of it and
stores it, and destroying the resulting wrapper emits exactly one release
of it; `retain` on null emits nothing and yields an empty wrapper. -/
theorem C3_retain_then_destroy (object : Option Nat) :
    CXXCFRef.CFRef.retain object = (⟨object⟩, acquireEvents object) ∧
      CXXCFRef.CFRef.dtor (CXXCFRef.CFRef.retain object).1 = releaseEvents object := by
  cases object <;> exact ⟨rfl, rfl⟩

/-- C4: copying a wrapper holding non-null `h` (by copy construction, or by
copy assignment into an empty wrapper) yields a wrapper holding `h` with
exactly one additional acquire of `h`; destroying the original and the copy
independently emits exactly two releases of `h`; copying a wrapper holding
null yields null with no event. -/
theorem C4_copy_law (h : Nat) :
    CXXCFRef.CFRef.ctorCopy ⟨some h⟩ = (⟨some h⟩, [Event.acquire h]) ∧
      CXXCFRef.CFRef.copyAssign ⟨none⟩ ⟨some h⟩ = (⟨some h⟩, [Event.acquire h]) ∧
      CXXCFRef.CFRef.dtor ⟨some h⟩
          ++ CXXCFRef.CFRef.dtor (CXXCFRef.CFRef.ctorCopy ⟨some h⟩).1
        = [Event.release h, Event.release h] ∧
      CXXCFRef.CFRef.ctorCopy ⟨none⟩ = (⟨none⟩, []) :=
  ⟨rfl, rfl, rfl, rfl⟩

/-- C5: moving a wrapper holding `object` into a fresh wrapper (by move
construction, or by move assignment into an empty wrapper) leaves the
target holding `object` and the source holding null, with an empty trace;
the single release of the handle happens only when the target is later
destroyed. -/
theorem C5_move_law (object : Option Nat) :
    CXXCFRef.CFRef.ctorMove ⟨object⟩ = (⟨object⟩, ⟨none⟩, []) ∧
      CXXCFRef.CFRef.moveAssign ⟨none⟩ ⟨object⟩ = (⟨object⟩, ⟨none⟩, []) ∧
      CXXCFRef.CFRef.dtor ⟨object⟩ = releaseEvents object := by
  cases object <;> exact ⟨rfl, rfl, rfl⟩

/-- C6: self-assignment safety.  Copy self-assignment of a wrapper holding
`h` emits `[acquire h, release h]` — the right-hand handle is acquired
before the held handle is released — and leaves the wrapper unchanged; on
an empty wrapper it emits nothing.  Move self-assignment leaves the
wrapper unchanged with an empty trace.  The acquire-then-release trace is
balanced (the final count equals the initial count `n`, so no leak and no
double release) and the running count never drops below `n` at any prefix,
so the handle can never be deallocated mid-operation. -/
theorem C6_self_assignment (h n : Nat) :
    CXXCFRef.CFRef.copyAssign ⟨some h⟩ ⟨some h⟩
        = (⟨some h⟩, [Event.acquire h, Event.release h]) ∧
      CXXCFRef.CFRef.copyAssign ⟨none⟩ ⟨none⟩ = (⟨none⟩, []) ∧
      CXXCFRef.CFRef.moveAssignSelf ⟨some h⟩ = (⟨some h⟩, []) ∧
      CXXCFRef.CFRef.moveAssignSelf ⟨none⟩ = (⟨none⟩, []) ∧
      runTrace n h [Event.acquire h, Event.release h] = n ∧
      minCount n h [Event.acquire h, Event.release h] = n := by
  refine ⟨rfl, rfl, rfl, rfl, ?_, ?_⟩ <;>
    simp [runTrace, minCount, applyCount]

/-- C7: round-trip.  `adopt object` emits nothing, and `release()` on the
resulting wrapper returns exactly `object`, leaves the wrapper holding
null, and emits nothing; in general `release()` (and the `cf` variant's
`leak()`) clears any wrapper to null and returns the previously held
handle with an empty trace. -/
theorem C7_round_trip (object : Option Nat) (s : CXXCFRef.CFRef) (t : cf.CFRef) :
    (CXXCFRef.CFRef.adopt object).2 = [] ∧
      ((CXXCFRef.CFRef.adopt object).1).release = (object, ⟨none⟩, []) ∧
      s.release = (s.object_, ⟨none⟩, []) ∧
      t.leak = (t.object_, ⟨none⟩, []) :=
  ⟨rfl, rfl, rfl, rfl⟩

/-- C8: equality.  For both the wrapper-vs-wrapper and the wrapper-vs-raw
overloads of `isEqual`, in both the `cf` and `cxxcf` variants: two null
handles compare equal; a null and a non-null handle compare unequal either
way around; two non-null handles compare exactly as the external equality
primitive `eq` (the abstraction of `CFEqual`) reports. -/
theorem C8_isEqual_cases (eq : Nat → Nat → Bool) (a b : Nat) :
    cf.CFRef.isEqual eq ⟨none⟩ ⟨none⟩ = true ∧
      cf.CFRef.isEqual eq ⟨none⟩ ⟨some b⟩ = false ∧
      cf.CFRef.isEqual eq ⟨some a⟩ ⟨none⟩ = false ∧
      cf.CFRef.isEqual eq ⟨some a⟩ ⟨some b⟩ = eq a b ∧
      cf.CFRef.isEqualRaw eq ⟨none⟩ none = true ∧
      cf.CFRef.isEqualRaw eq ⟨none⟩ (some b) = false ∧
      cf.CFRef.isEqualRaw eq ⟨some a⟩ none = false ∧
      cf.CFRef.isEqualRaw eq ⟨some a⟩ (some b) = eq a b ∧
      cxxcf.CFRef.isEqual eq ⟨none⟩ ⟨none⟩ = true ∧
      cxxcf.CFRef.isEqual eq ⟨none⟩ ⟨some b⟩ = false ∧
      cxxcf.CFRef.isEqual eq ⟨some a⟩ ⟨none⟩ = false ∧
      cxxcf.CFRef.isEqual eq ⟨some a⟩ ⟨some b⟩ = eq a b :=
  ⟨rfl, rfl, rfl, rfl, rfl, rfl, rfl, rfl, rfl, rfl, rfl, rfl⟩

/-- C9: `put()` on a wrapper holding `object` releases the held handle
exactly once when non-null (never when null), leaves the internal slot
holding null at the moment the slot's address is returned, and a handle
deposited through the slot becomes the wrapper's owned handle: the whole
put-deposit-destroy sequence emits exactly the release of the old handle
followed by one release of the deposited handle, and no acquire.  The
`cf` variant's `put()` behaves identically. -/
theorem C9_put_semantics (object : Option Nat) (h : Nat) :
    CXXCFRef.CFRef.put ⟨object⟩ = (⟨none⟩, releaseEvents object) ∧
      ((CXXCFRef.CFRef.put ⟨object⟩).1).object_ = none ∧
      CXXCFRef.CFRef.writeSlot (CXXCFRef.CFRef.put ⟨object⟩).1 (some h) = ⟨some h⟩ ∧
      (CXXCFRef.CFRef.put ⟨object⟩).2
          ++ CXXCFRef.CFRef.dtor
              (CXXCFRef.CFRef.writeSlot (CXXCFRef.CFRef.put ⟨object⟩).1 (some h))
        = releaseEvents object ++ [Event.release h] ∧
      cf.CFRef.put ⟨object⟩ = (⟨none⟩, releaseEvents object) :=
  ⟨rfl, rfl, rfl, rfl, rfl⟩

/-- C10: `reset` stores the new handle before releasing the old one: at
every micro-step of `resetSteps` the wrapper already holds the new value
(so no step's state refers to a handle the operation has already
released), and the micro-step view agrees with `reset` on the final state
and the emitted events.  Consequently resetting a wrapper holding `h` with
the very same `h` leaves it holding `h` and emits exactly one release of
`h`, in all three variants. -/
theorem C10_reset_store_first (s : CXXCFRef.CFRef) (o : Option Nat) (h : Nat) :
    ((CXXCFRef.CFRef.resetSteps s o).all fun p => p.1.object_ == o) = true ∧
      (CXXCFRef.CFRef.resetSteps s o).filterMap Prod.snd = (s.reset o).2 ∧
      ((CXXCFRef.CFRef.resetSteps s o).map Prod.fst).getLast? = some (s.reset o).1 ∧
      CXXCFRef.CFRef.reset ⟨some h⟩ (some h) = (⟨some h⟩, [Event.release h]) ∧
      cf.CFRef.reset ⟨some h⟩ (some h) = (⟨some h⟩, [Event.release h]) ∧
      cxxcf.CFRef.reset ⟨some h⟩ (some h) = (⟨some h⟩, [Event.release h]) := by
  obtain ⟨o0⟩ := s
  cases o0 <;>
    refine ⟨?_, rfl, rfl, rfl, rfl, rfl⟩ <;>
      simp [CXXCFRef.CFRef.resetSteps]
